import Mathlib

/-
  Verification development for the Finance_Tracker repository.

  The repository is a small React frontend.  The parts the claims are about:
  * src/frontend/finance-tracker/src/services/transactions.js — two async
    pass-through functions, `getTransactions` and `createTransaction`, over an
    axios-like client `api`;
  * src/frontend/finance-tracker/src/components/Navbar.jsx — static navigation;
  * the App root (unnamed source file) — router with three routes.

  The services are embedded as pure Lean functions parametrised by the
  behaviour of the imported `api` client (an oracle from requests to
  responses-or-rejections).  Each run records the list of client calls it
  issues, so "issues exactly one request" is a statement about that trace.
  The JSX trees of App and Navbar are embedded as a small element inductive.
-/

namespace FinanceTracker

/-- JSON-like JavaScript values: the payloads, filters and response bodies the
services pass through are arbitrary plain data. -/
inductive Value where
  | null
  | bool (b : Bool)
  | num (n : Int)
  | str (s : String)
  | arr (elements : List Value)
  | obj (fields : List (String × Value))

/-- A JavaScript object literal, as a field-name/value association list.  The
`filters` argument of `getTransactions` is such an object; the empty object
literal is `[]`. -/
abbrev Obj := List (String × Value)

/-- The axios request config object: `getTransactions` passes the object
`{params: filters}`, so the config carries the query parameters. -/
structure Config where
  params : Obj

/-- An HTTP response as the axios-like client exposes it: status, headers and
the parsed body in the `data` field.  The services read only `data`. -/
structure Response where
  status : Nat
  headers : Obj
  data : Value

/-- A rejection value of the underlying client call (the services never
inspect it, so its exact shape is irrelevant). -/
abbrev Err := String

/-- One call made to the imported `api` client: `api.get(path, config)` or
`api.post(path, body)`. -/
inductive ApiCall where
  | get (path : String) (config : Config)
  | post (path : String) (body : Value)

/-- The request path of a client call. -/
def ApiCall.reqPath : ApiCall → String
  | .get p _ => p
  | .post p _ => p

/-- The query parameters a client call carries: for a GET they come from the
config's `params` field; the services' POST passes a body and no params. -/
def ApiCall.reqParams : ApiCall → Obj
  | .get _ cfg => cfg.params
  | .post _ _ => []

/-- The request body of a client call: only the POST carries one. -/
def ApiCall.reqBody : ApiCall → Option Value
  | .get _ _ => none
  | .post _ b => some b

/-- A behaviour of the `api` client: each call either resolves to a response
or rejects.  The services are parametric in this behaviour. -/
abbrev Api := ApiCall → Except Err Response

/-- One run of a service function: the client calls it issued, in order, and
its result (the value the async function resolves to, or the rejection it
propagates). -/
structure ServiceRun (α : Type) where
  calls : List ApiCall
  result : Except Err α

/-- Embeds `getTransactions` from
src/frontend/finance-tracker/src/services/transactions.js:
`const res = await api.get("/transactions", {params: filters}); return res.data`.
The single awaited `api.get` call is the whole trace; on resolution the
function returns exactly `res.data`, and a rejection propagates unchanged
(`Except.map` keeps the error). -/
def getTransactions (api : Api) (filters : Obj) : ServiceRun Value :=
  ⟨[ApiCall.get "/transactions" ⟨filters⟩],
    (api (ApiCall.get "/transactions" ⟨filters⟩)).map Response.data⟩

/-- Embeds a call of `getTransactions()` with no argument: the default
parameter `filters = {}` of the source applies, so the empty object is used. -/
def getTransactionsNoFilters (api : Api) : ServiceRun Value :=
  getTransactions api []

/-- Embeds `createTransaction` from
src/frontend/finance-tracker/src/services/transactions.js:
`const res = await api.post("/transactions", data); return res.data`. -/
def createTransaction (api : Api) (data : Value) : ServiceRun Value :=
  ⟨[ApiCall.post "/transactions" data],
    (api (ApiCall.post "/transactions" data)).map Response.data⟩

/- ---------------------------------------------------------------- UI layer -/

/-- The three page components routed by App. -/
inductive PageC where
  | Home
  | Transactions
  | Categories

/-- One `Route` element of the `Routes` block in App: a path and the page
component rendered for it. -/
structure RouteEntry where
  path : String
  element : PageC

/-- The `className` callback of a `NavLink`, `({isActive}) => isActive ?
"nav-link active" : "nav-link"`, embedded as its two possible results. -/
structure NavLinkClass where
  active : String
  inactive : String

/-- Rendered JSX elements of the two components the claims mention (the
`to` prop of a `NavLink` is the `target` field, `to` being reserved). -/
inductive Element where
  | nav (className : String) (children : List Element)
  | div (className : String) (children : List Element)
  | img (src alt className : String)
  | h1 (className : String) (text : String)
  | navLink (target : String) (className : NavLinkClass) (label : String)
  | router (child : Element)
  | routes (entries : List RouteEntry)

/-- Embeds the tree returned by `Navbar()` in
src/frontend/finance-tracker/src/components/Navbar.jsx: a `nav` holding the
logo block and the three `NavLink`s. -/
def Navbar : Element :=
  .nav "navbar"
    [ .div "navbar-left"
        [ .img "logo" "App logo" "navbar-logo-img",
          .h1 "navbar-logo-text" "MyFinanceApp" ],
      .div "navbar-links"
        [ .navLink "/" ⟨"nav-link active", "nav-link"⟩ "Home",
          .navLink "/transactions" ⟨"nav-link active", "nav-link"⟩ "Transactions",
          .navLink "/categories" ⟨"nav-link active", "nav-link"⟩ "Categories" ] ]

/-- Embeds the tree returned by `App()` (unnamed App source file): a Router
wrapping a div that renders the Navbar and then the `Routes` block with its
three `Route`s. -/
def App : Element :=
  .router
    (.div "min-h-screen bg-gray-50"
      [ Navbar,
        .div "p-6"
          [ .routes
              [ ⟨"/", .Home⟩,
                ⟨"/transactions", .Transactions⟩,
                ⟨"/categories", .Categories⟩ ] ] ])

/-- All `NavLink` targets occurring in an element tree, left to right, up to
the given depth (fuel keeps the recursion structural; the concrete trees are
shallow). -/
def navLinkTargetsFuel : Nat → Element → List String
  | 0, _ => []
  | fuel + 1, e =>
    match e with
    | .navLink t _ _ => [t]
    | .nav _ cs => cs.foldr (fun c acc => navLinkTargetsFuel fuel c ++ acc) []
    | .div _ cs => cs.foldr (fun c acc => navLinkTargetsFuel fuel c ++ acc) []
    | .router c => navLinkTargetsFuel fuel c
    | _ => []

/-- All `NavLink` targets of an element tree (depth 8 covers the concrete
trees of this repository). -/
def navLinkTargets (e : Element) : List String :=
  navLinkTargetsFuel 8 e

/-- All `Route` entries occurring in an element tree, left to right, up to
the given depth. -/
def routeEntriesFuel : Nat → Element → List RouteEntry
  | 0, _ => []
  | fuel + 1, e =>
    match e with
    | .routes rs => rs
    | .nav _ cs => cs.foldr (fun c acc => routeEntriesFuel fuel c ++ acc) []
    | .div _ cs => cs.foldr (fun c acc => routeEntriesFuel fuel c ++ acc) []
    | .router c => routeEntriesFuel fuel c
    | _ => []

/-- All `Route` entries of an element tree (depth 8 covers the concrete
trees). -/
def routeEntries (e : Element) : List RouteEntry :=
  routeEntriesFuel 8 e

/- ---------------------------------------------------------------- theorems -/

/-- C1: for every api behaviour and every filters object, `getTransactions`
issues exactly one GET request, to the path "/transactions", carrying the
filters as its query parameters, and its result is exactly the `data` field of
the client's response (a rejection propagating unchanged through the map); in
particular the call with the single-entry filters object mapping "category" to
"food" issues a request carrying that parameter. -/
theorem getTransactions_one_get_returns_data (api : Api) (filters : Obj) :
    (getTransactions api filters).calls = [ApiCall.get "/transactions" ⟨filters⟩] ∧
    (getTransactions api filters).result =
      (api (ApiCall.get "/transactions" ⟨filters⟩)).map Response.data ∧
    ((getTransactions api [("category", Value.str "food")]).calls.map
        ApiCall.reqParams) = [[("category", Value.str "food")]] :=
  ⟨rfl, rfl, rfl⟩

/-- C2: for every api behaviour and every payload, `createTransaction` issues
exactly one POST request, to the path "/transactions", whose body is the given
payload itself, and returns exactly the `data` field of the client's
response. -/
theorem createTransaction_one_post_returns_data (api : Api) (data : Value) :
    (createTransaction api data).calls = [ApiCall.post "/transactions" data] ∧
    ((createTransaction api data).calls.map ApiCall.reqBody) = [some data] ∧
    (createTransaction api data).result =
      (api (ApiCall.post "/transactions" data)).map Response.data :=
  ⟨rfl, rfl, rfl⟩

/-- C3: calling `getTransactions` with no argument (so the default
`filters = {}` applies) issues one request to "/transactions" whose
query-parameter set is empty. -/
theorem getTransactions_default_empty_params (api : Api) :
    (getTransactionsNoFilters api).calls = [ApiCall.get "/transactions" ⟨[]⟩] ∧
    ((getTransactionsNoFilters api).calls.map ApiCall.reqParams) = [[]] :=
  ⟨rfl, rfl⟩

/-- C4: if the underlying client call rejects with an error, each service
function rejects with that same error, untouched: no catch, retry, fallback
or transformation happens in the service. -/
theorem errors_propagate_unhandled (api : Api) (filters : Obj) (data : Value)
    (e : Err) :
    (api (ApiCall.get "/transactions" ⟨filters⟩) = Except.error e →
      (getTransactions api filters).result = Except.error e) ∧
    (api (ApiCall.post "/transactions" data) = Except.error e →
      (createTransaction api data).result = Except.error e) := by
  constructor
  · intro h
    simp [getTransactions, h, Except.map]
  · intro h
    simp [createTransaction, h, Except.map]

/-- C4 witness: with a client that rejects every call with "boom", both
service functions reject with "boom". -/
theorem errors_propagate_unhandled_witness :
    (getTransactions (fun _ => Except.error "boom") []).result =
      Except.error "boom" ∧
    (createTransaction (fun _ => Except.error "boom") Value.null).result =
      Except.error "boom" :=
  ⟨(errors_propagate_unhandled (fun _ => Except.error "boom") [] Value.null
      "boom").1 rfl,
   (errors_propagate_unhandled (fun _ => Except.error "boom") [] Value.null
      "boom").2 rfl⟩

/-- C5: each invocation of a service function performs exactly one call to the
api client — for every behaviour of the client, including rejecting ones, the
trace is the one-request list, so no retry or further page request ever
occurs — and the run is a function of the api behaviour and the argument
alone, so no state persists between invocations. -/
theorem services_exactly_one_call (api : Api) (filters : Obj) (data : Value) :
    (getTransactions api filters).calls.length = 1 ∧
    (getTransactions api filters).calls = [ApiCall.get "/transactions" ⟨filters⟩] ∧
    (createTransaction api data).calls.length = 1 ∧
    (createTransaction api data).calls = [ApiCall.post "/transactions" data] :=
  ⟨rfl, rfl, rfl, rfl⟩

/-- C7: requests are mutually independent and unordered: the entire run of a
service invocation (its trace and its result) depends only on the client's
behaviour at the single request that invocation issues, so no call waits on,
cancels, sequences or otherwise coordinates with any other request. -/
theorem requests_independent (api api' : Api) (filters : Obj) (data : Value)
    (hg : api (ApiCall.get "/transactions" ⟨filters⟩) =
      api' (ApiCall.get "/transactions" ⟨filters⟩))
    (hp : api (ApiCall.post "/transactions" data) =
      api' (ApiCall.post "/transactions" data)) :
    getTransactions api filters = getTransactions api' filters ∧
    createTransaction api data = createTransaction api' data := by
  constructor
  · simp [getTransactions, hg]
  · simp [createTransaction, hp]

/-- C7 witness: two clients agreeing on the two concrete requests give
identical runs at those arguments. -/
theorem requests_independent_witness :
    getTransactions (fun _ => Except.error "a") [] =
      getTransactions (fun c => if c.reqPath = "/transactions"
        then Except.error "a" else Except.error "b") [] ∧
    createTransaction (fun _ => Except.error "a") Value.null =
      createTransaction (fun c => if c.reqPath = "/transactions"
        then Except.error "a" else Except.error "b") Value.null :=
  requests_independent (fun _ => Except.error "a")
    (fun c => if c.reqPath = "/transactions"
      then Except.error "a" else Except.error "b")
    [] Value.null (by simp [ApiCall.reqPath]) (by simp [ApiCall.reqPath])

/-- C8: neither service function modifies its argument on the way to the
client: the single request issued carries the given filters object itself as
its query parameters, and the given payload itself as its body, unmodified. -/
theorem arguments_forwarded_unmodified (api : Api) (filters : Obj)
    (data : Value) :
    ((getTransactions api filters).calls.map ApiCall.reqParams) = [filters] ∧
    ((createTransaction api data).calls.map ApiCall.reqBody) = [some data] :=
  ⟨rfl, rfl⟩

/-- C9: the services are deterministic relative to the client and read only
the response's `data` field: whenever two clients resolve the issued request
with responses sharing the same `data` (statuses and headers arbitrary), each
service returns exactly that `data`, and the two runs' results coincide. -/
theorem result_is_response_data_only (api api' : Api) (filters : Obj)
    (data : Value) (s s' : Nat) (hd hd' : Obj) (d b : Value)
    (hg : api (ApiCall.get "/transactions" ⟨filters⟩) = Except.ok ⟨s, hd, d⟩)
    (hg' : api' (ApiCall.get "/transactions" ⟨filters⟩) = Except.ok ⟨s', hd', d⟩)
    (hb : api (ApiCall.post "/transactions" data) = Except.ok ⟨s, hd, b⟩)
    (hb' : api' (ApiCall.post "/transactions" data) = Except.ok ⟨s', hd', b⟩) :
    (getTransactions api filters).result = Except.ok d ∧
    (getTransactions api filters).result = (getTransactions api' filters).result ∧
    (createTransaction api data).result = Except.ok b ∧
    (createTransaction api data).result =
      (createTransaction api' data).result := by
  refine ⟨?_, ?_, ?_, ?_⟩ <;>
    simp [getTransactions, createTransaction, hg, hg', hb, hb', Except.map]

/-- C9 witness: two clients answering with different statuses and headers but
the same body give the same results, namely the body. -/
theorem result_is_response_data_only_witness :
    (getTransactions (fun _ => Except.ok ⟨200, [], Value.null⟩) []).result =
      Except.ok Value.null ∧
    (getTransactions (fun _ => Except.ok ⟨200, [], Value.null⟩) []).result =
      (getTransactions (fun _ => Except.ok ⟨201, [("x", Value.null)], Value.null⟩)
        []).result ∧
    (createTransaction (fun _ => Except.ok ⟨200, [], Value.null⟩)
        Value.null).result = Except.ok Value.null ∧
    (createTransaction (fun _ => Except.ok ⟨200, [], Value.null⟩)
        Value.null).result =
      (createTransaction (fun _ => Except.ok ⟨201, [("x", Value.null)], Value.null⟩)
        Value.null).result :=
  result_is_response_data_only
    (fun _ => Except.ok ⟨200, [], Value.null⟩)
    (fun _ => Except.ok ⟨201, [("x", Value.null)], Value.null⟩)
    [] Value.null 200 201 [] [("x", Value.null)] Value.null Value.null
    rfl rfl rfl rfl

/-- C6: the App root composes the router and layout: its tree is a Router
whose div renders the Navbar first (unconditionally) and then the Routes
block, whose entries are exactly the three routes mapping "/" to Home,
"/transactions" to Transactions and "/categories" to Categories. -/
theorem app_renders_navbar_and_three_routes :
    (∃ rest, App =
      Element.router (Element.div "min-h-screen bg-gray-50" (Navbar :: rest))) ∧
    routeEntries App =
      [⟨"/", PageC.Home⟩, ⟨"/transactions", PageC.Transactions⟩,
        ⟨"/categories", PageC.Categories⟩] ∧
    (routeEntries App).length = 3 :=
  ⟨⟨[Element.div "p-6"
      [Element.routes
        [⟨"/", PageC.Home⟩, ⟨"/transactions", PageC.Transactions⟩,
          ⟨"/categories", PageC.Categories⟩]]], rfl⟩, rfl, rfl⟩

/-- C10: every NavLink target rendered by the Navbar occurs among the route
paths declared in App, so no navigation link points at an unrouted path. -/
theorem navlinks_all_routed :
    (navLinkTargets Navbar).all
      (fun t => ((routeEntries App).map RouteEntry.path).contains t) = true :=
  rfl

end FinanceTracker
